import Mathlib

/-!
Verification of the two dashboards in this repository.

`BookScape.py` fetches book metadata from the Google Books volumes API,
flattens it into rows, stores the rows in a SQLite table named `books`,
and dispatches a fixed menu of analysis queries over that table.

`DataDrivenStockAnalysis.py` loads an uploaded CSV of stock price rows,
deduplicates on the (Date, Symbol) pair, filters by user-selected stock
and date range, and renders charts and top-5 tables.

The Lean development below is a shallow embedding of those scripts:
JSON records become structures with `Option` fields, DataFrames become
lists of rows, SQLite becomes an explicit database state, and floating
point columns are modelled with exact rationals.
-/

namespace BookScape

/-- The `imageLinks` object of a volume: only the `thumbnail` key is read. -/
structure ImageLinks where
  thumbnail : Option String
deriving DecidableEq, Repr

/-- The `volumeInfo` object of a Google Books API record, restricted to the
keys read by `transform_data` (BookScape.py lines 31-44). -/
structure VolumeInfo where
  title : Option String
  subtitle : Option String
  description : Option String
  authors : List String
  categories : List String
  pageCount : Option Int
  language : Option String
  imageLinks : Option ImageLinks
  averageRating : Option ℚ
  ratingsCount : Option Int
  publisher : Option String
  publishedDate : Option String
deriving DecidableEq, Repr

/-- A `listPrice` or `retailPrice` object of the `saleInfo` record. -/
structure Price where
  amount : Option ℚ
  currencyCode : Option String
deriving DecidableEq, Repr

/-- The `saleInfo` object of a Google Books API record, restricted to the keys
read by `transform_data` (BookScape.py lines 45-52). -/
structure SaleInfo where
  isEbook : Option Bool
  saleability : Option String
  listPrice : Option Price
  retailPrice : Option Price
  buyLink : Option String
  country : Option String
deriving DecidableEq, Repr

/-- One JSON record of the API response's `items` array.  Each sub-object may
be absent, in which case the Python code substitutes `{}` via `.get`. -/
structure BookRecord where
  id : Option String
  volumeInfo : Option VolumeInfo
  saleInfo : Option SaleInfo
deriving DecidableEq, Repr

/-- The flat row built for each book (BookScape.py lines 31-53): 21 named
fields.  `authors`, `categories` and `published_year` are always strings
(the joins and the `[:4]` slice of a defaulted string never yield null);
the other 18 fields are null exactly when the source key is absent. -/
structure BookRow where
  book_id : Option String
  title : Option String
  subtitle : Option String
  authors : String
  description : Option String
  categories : String
  page_count : Option Int
  language : Option String
  image_link : Option String
  average_rating : Option ℚ
  ratings_count : Option Int
  publisher : Option String
  published_year : String
  is_ebook : Option Bool
  saleability : Option String
  amount_list_price : Option ℚ
  currency_code_list_price : Option String
  amount_retail_price : Option ℚ
  currency_code_retail_price : Option String
  buy_link : Option String
  country : Option String
deriving DecidableEq, Repr

/-- Python's `", ".join(...)`. -/
def joinComma (l : List String) : String := String.intercalate ", " l

/-- The body of the `for book in books` loop of `transform_data`
(BookScape.py lines 25-53): each `.get` on a possibly-missing sub-object is
an `Option.bind`/`Option.map`, and the `.get(key, default)` calls are
`Option.getD`. -/
def flattenBook (book : BookRecord) : BookRow :=
  { book_id := book.id
    title := book.volumeInfo.bind (·.title)
    subtitle := book.volumeInfo.bind (·.subtitle)
    authors := joinComma ((book.volumeInfo.map (·.authors)).getD [])
    description := book.volumeInfo.bind (·.description)
    categories := joinComma ((book.volumeInfo.map (·.categories)).getD [])
    page_count := book.volumeInfo.bind (·.pageCount)
    language := book.volumeInfo.bind (·.language)
    image_link := (book.volumeInfo.bind (·.imageLinks)).bind (·.thumbnail)
    average_rating := book.volumeInfo.bind (·.averageRating)
    ratings_count := book.volumeInfo.bind (·.ratingsCount)
    publisher := book.volumeInfo.bind (·.publisher)
    published_year := ((book.volumeInfo.bind (·.publishedDate)).getD "").take 4
    is_ebook := book.saleInfo.bind (·.isEbook)
    saleability := book.saleInfo.bind (·.saleability)
    amount_list_price := (book.saleInfo.bind (·.listPrice)).bind (·.amount)
    currency_code_list_price :=
      (book.saleInfo.bind (·.listPrice)).bind (·.currencyCode)
    amount_retail_price := (book.saleInfo.bind (·.retailPrice)).bind (·.amount)
    currency_code_retail_price :=
      (book.saleInfo.bind (·.retailPrice)).bind (·.currencyCode)
    buy_link := book.saleInfo.bind (·.buyLink)
    country := book.saleInfo.bind (·.country) }

/-- `df.dropna()` keeps a row iff none of its cells is null: the 18 nullable
fields must all be present (the three string fields are never null). -/
def rowComplete (r : BookRow) : Bool :=
  r.book_id.isSome && r.title.isSome && r.subtitle.isSome &&
  r.description.isSome && r.page_count.isSome && r.language.isSome &&
  r.image_link.isSome && r.average_rating.isSome && r.ratings_count.isSome &&
  r.publisher.isSome && r.is_ebook.isSome && r.saleability.isSome &&
  r.amount_list_price.isSome && r.currency_code_list_price.isSome &&
  r.amount_retail_price.isSome && r.currency_code_retail_price.isSome &&
  r.buy_link.isSome && r.country.isSome

/-- `transform_data` (BookScape.py lines 23-56): flatten every record, then
`df.dropna(inplace=True)` drops each row with at least one null cell. -/
def transform_data (books : List BookRecord) : List BookRow :=
  (books.map flattenBook).filter rowComplete

/-- A row has no missing field: every nullable cell is filled. -/
def NoMissingField (r : BookRow) : Prop :=
  r.book_id ≠ none ∧ r.title ≠ none ∧ r.subtitle ≠ none ∧
  r.description ≠ none ∧ r.page_count ≠ none ∧ r.language ≠ none ∧
  r.image_link ≠ none ∧ r.average_rating ≠ none ∧ r.ratings_count ≠ none ∧
  r.publisher ≠ none ∧ r.is_ebook ≠ none ∧ r.saleability ≠ none ∧
  r.amount_list_price ≠ none ∧ r.currency_code_list_price ≠ none ∧
  r.amount_retail_price ≠ none ∧ r.currency_code_retail_price ≠ none ∧
  r.buy_link ≠ none ∧ r.country ≠ none

theorem rowComplete_iff (r : BookRow) : rowComplete r = true ↔ NoMissingField r := by
  simp [rowComplete, NoMissingField, Option.isSome_iff_ne_none, and_assoc]

/-- The state of the SQLite file `books.db`.  `table rows` is a `books` table
holding exactly `rows`; `afterWrite prev sql` marks the otherwise
unspecified state left behind if a non-SELECT statement `sql` ran on state
`prev` (the scripts never reach such a state through `query_database`). -/
inductive Db where
  | table (rows : List BookRow)
  | afterWrite (prev : Db) (sql : String)
deriving DecidableEq, Repr

/-- What one `pd.read_sql_query` call returns.  The connection is opened
fresh and closed immediately, so the result is a function of the database
state and the SQL text alone; the pair is kept symbolic, and two reads agree
exactly when their states and texts agree. -/
structure QueryResult where
  state : Db
  sql : String
deriving DecidableEq, Repr

/-- Leading ASCII whitespace removed, as the SQL engine skips it before the
first token of a statement. -/
def dropLeadingWs : List Char → List Char
  | [] => []
  | c :: cs =>
      if c = ' ' ∨ c = '\n' ∨ c = '\t' ∨ c = '\r' then dropLeadingWs cs
      else c :: cs

/-- A statement whose first token is `SELECT`.  Such a statement reads the
database and leaves it unchanged. -/
def isSelectStmt (sql : String) : Bool :=
  decide ((dropLeadingWs sql.data).take 6 = "SELECT".data)

/-- `query_database` (BookScape.py lines 65-69): open a fresh connection,
run one statement through `pd.read_sql_query`, close the connection.  A
SELECT statement leaves the database unchanged; any other statement moves it
to an `afterWrite` state. -/
def query_database (db : Db) (sql : String) : QueryResult × Db :=
  (⟨db, sql⟩, if isSelectStmt sql then db else Db.afterWrite db sql)

/-- `save_to_database` (BookScape.py lines 59-62): `df.to_sql("books", conn,
if_exists="replace", index=False)` drops any existing `books` table and
writes the rows of `df`, so the resulting state holds exactly those rows,
whatever the previous state held. -/
def save_to_database (df : List BookRow) (_db : Db) : Db := Db.table df

/-- An HTTP response from the volumes endpoint: its status code together
with the `items` array of its JSON body (an absent array is the default
`[]` of `response.json().get("items", [])`). -/
structure HttpResponse where
  statusCode : Nat
  items : List BookRecord

/-- `fetch_books` (BookScape.py lines 12-20): return the items array on
status 200 and the empty list on any other status. -/
def fetch_books (resp : HttpResponse) : List BookRecord :=
  if resp.statusCode = 200 then resp.items else []

/-- What the Search button handler displays (BookScape.py lines 77-85):
a success banner with the number of saved rows, or the error banner
"No books found." -/
inductive SearchOutcome where
  | saved (count : Nat)
  | noBooks
deriving DecidableEq, Repr

/-- The Search button handler (BookScape.py lines 77-85): fetch the books;
when the list is non-empty, transform it and replace the stored table, else
display "No books found." and leave the database alone. -/
def searchHandler (resp : HttpResponse) (db : Db) : SearchOutcome × Db :=
  let books := fetch_books resp
  if books.isEmpty then (SearchOutcome.noBooks, db)
  else
    let df := transform_data books
    (SearchOutcome.saved df.length, save_to_database df db)

/-- What one of the two try/except handlers displays: a rendered result or
an error banner. -/
inductive Display where
  | table (r : QueryResult)
  | barChart (r : QueryResult)
  | errorMessage (msg : String)
deriving DecidableEq, Repr

/-- The Run Query handler (BookScape.py lines 95-101): the try body renders
the query result as a table; the blanket `except` displays the error
message prefixed by "Error running query: ". -/
def runQueryHandler (outcome : Except String QueryResult) : Display :=
  match outcome with
  | Except.ok r => Display.table r
  | Except.error e => Display.errorMessage ("Error running query: " ++ e)

/-- The Run Analysis except clause (BookScape.py lines 285-286): the try
body renders what the matched branch produced; the blanket `except`
displays the error message prefixed by "Error running analysis: ". -/
def runAnalysisHandler (outcome : Except String Display) : Display :=
  match outcome with
  | Except.ok d => d
  | Except.error e => Display.errorMessage ("Error running analysis: " ++ e)

/-- The sidebar dropdown options (BookScape.py lines 105-125). -/
def analysis_options : List String :=
  [ "Availability of eBooks vs Physical Books",
    "Top 5 Most Expensive Books",
    "Books with High Ratings",
    "Books by Year and Publisher",
    "Find the Publisher with the Most Books Published",
    "Identify the Publisher with the Highest Average Rating",
    "Find Books Published After 2010 with at Least 500 Pages",
    "List Books with Discounts Greater than 20%",
    "Find the Average Page Count for eBooks vs Physical Books",
    "Find the Top 3 Authors with the Most Books",
    "List Publishers with More than 10 Books",
    "Find the Average Page Count for Each Category",
    "Retrieve Books with More than 3 Authors",
    "Books with Ratings Count Greater Than the Average",
    "Books with the Same Author Published in the Same Year",
    "Books with a Specific Keyword in the Title",
    "Year with the Highest Average Book Price",
    "Count Authors Who Published 3 Consecutive Years",
    "Authors Published in Same Year but Different Publishers" ]

/-- SQL literal of BookScape.py lines 131-135. -/
def sqlAvailability : String :=
  "\n                SELECT is_ebook, COUNT(*) as count\n                FROM books\n                GROUP BY is_ebook\n            "

/-- SQL literal of BookScape.py lines 138-143. -/
def sqlTop5Expensive : String :=
  "\n                SELECT title, amount_retail_price, currency_code_retail_price\n                FROM books\n                ORDER BY amount_retail_price DESC\n                LIMIT 5\n            "

/-- SQL literal of BookScape.py lines 146-151. -/
def sqlHighRatings : String :=
  "\n                SELECT title, average_rating, ratings_count\n                FROM books\n                WHERE average_rating > 4.5\n                ORDER BY average_rating DESC\n            "

/-- SQL literal of BookScape.py lines 154-159. -/
def sqlYearPublisher : String :=
  "\n                SELECT published_year, publisher, COUNT(*) as book_count\n                FROM books\n                GROUP BY published_year, publisher\n                ORDER BY published_year DESC\n            "

/-- SQL literal of BookScape.py lines 162-168. -/
def sqlMostBooksPublisher : String :=
  "\n                SELECT publisher, COUNT(*) as book_count\n                FROM books\n                GROUP BY publisher\n                ORDER BY book_count DESC\n                LIMIT 1\n            "

/-- SQL literal of BookScape.py lines 171-178. -/
def sqlHighestAvgRatingPublisher : String :=
  "\n                SELECT publisher, AVG(average_rating) as avg_rating, COUNT(*) as book_count\n                FROM books\n                GROUP BY publisher\n                HAVING COUNT(*) > 10\n                ORDER BY avg_rating DESC\n                LIMIT 1\n            "

/-- SQL literal of BookScape.py lines 181-185. -/
def sqlAfter2010Pages500 : String :=
  "\n                SELECT title, authors, page_count, published_year\n                FROM books\n                WHERE published_year > '2010' AND page_count >= 500\n            "

/-- SQL literal of BookScape.py lines 188-194 (the trailing blanks after the
first SELECT line and after AND are in the source). -/
def sqlDiscounts : String :=
  "\n                SELECT title, amount_list_price, amount_retail_price, \n                       ((amount_list_price - amount_retail_price) / amount_list_price) * 100 AS discount_percentage\n                FROM books\n                WHERE amount_list_price > 0 AND \n                      (amount_list_price - amount_retail_price) / amount_list_price >= 0.2\n            "

/-- SQL literal of BookScape.py lines 197-201. -/
def sqlAvgPagesEbook : String :=
  "\n                SELECT is_ebook, AVG(page_count) as avg_page_count\n                FROM books\n                GROUP BY is_ebook\n            "

/-- SQL literal of BookScape.py lines 204-210. -/
def sqlTop3Authors : String :=
  "\n                SELECT authors, COUNT(*) as book_count\n                FROM books\n                GROUP BY authors\n                ORDER BY book_count DESC\n                LIMIT 3\n            "

/-- SQL literal of BookScape.py lines 213-219. -/
def sqlPublishersOver10 : String :=
  "\n                SELECT publisher, COUNT(*) as book_count\n                FROM books\n                GROUP BY publisher\n                HAVING COUNT(*) > 10\n                ORDER BY book_count DESC\n            "

/-- SQL literal of BookScape.py lines 222-227. -/
def sqlAvgPagesCategory : String :=
  "\n                SELECT categories, AVG(page_count) as avg_page_count\n                FROM books\n                GROUP BY categories\n                ORDER BY avg_page_count DESC\n            "

/-- SQL literal of BookScape.py lines 230-234. -/
def sqlOver3Authors : String :=
  "\n                SELECT title, authors\n                FROM books\n                WHERE LENGTH(authors) - LENGTH(REPLACE(authors, ',', '')) + 1 > 3\n            "

/-- SQL literal of BookScape.py lines 237-242. -/
def sqlRatingsAboveAvg : String :=
  "\n                SELECT title, average_rating, ratings_count\n                FROM books\n                WHERE ratings_count > (SELECT AVG(ratings_count) FROM books)\n                ORDER BY ratings_count DESC\n            "

/-- SQL literal of BookScape.py lines 245-250. -/
def sqlSameAuthorSameYear : String :=
  "\n                SELECT authors, published_year, COUNT(*) as book_count\n                FROM books\n                GROUP BY authors, published_year\n                HAVING COUNT(*) > 1\n            "

/-- The part of the keyword branch's f-string before the interpolated
keyword (BookScape.py lines 254-258). -/
def sqlKeywordPrefix : String :=
  "\n                SELECT title, authors, published_year\n                FROM books\n                WHERE title LIKE '%"

/-- The part of the keyword branch's f-string after the interpolated
keyword (BookScape.py lines 254-258). -/
def sqlKeywordSuffix : String :=
  "%'\n            "

/-- The SQL of the keyword branch: the f-string splices the text-input value
between the two literal parts (BookScape.py line 257). -/
def sqlKeyword (keyword : String) : String :=
  sqlKeywordPrefix ++ keyword ++ sqlKeywordSuffix

/-- SQL literal of BookScape.py lines 261-267. -/
def sqlHighestAvgPriceYear : String :=
  "\n                SELECT published_year, AVG(amount_retail_price) as avg_price\n                FROM books\n                GROUP BY published_year\n                ORDER BY avg_price DESC\n                LIMIT 1\n            "

/-- SQL literal of BookScape.py lines 270-275. -/
def sqlConsecutiveYears : String :=
  "\n                SELECT authors, COUNT(DISTINCT published_year) as consecutive_years\n                FROM books\n                GROUP BY authors\n                HAVING consecutive_years >= 3\n            "

/-- SQL literal of BookScape.py lines 278-283. -/
def sqlSameYearDiffPublishers : String :=
  "\n                SELECT authors, published_year, COUNT(DISTINCT publisher) as publisher_count\n                FROM books\n                GROUP BY authors, published_year\n                HAVING publisher_count > 1\n            "

/-- The SQL string the Run Analysis dispatch (BookScape.py lines 128-286)
passes to `query_database` for a given dropdown choice and keyword-box
content; `none` when no branch matches the choice. -/
def analysisSQL (choice keyword : String) : Option String :=
  if choice = "Availability of eBooks vs Physical Books" then some sqlAvailability
  else if choice = "Top 5 Most Expensive Books" then some sqlTop5Expensive
  else if choice = "Books with High Ratings" then some sqlHighRatings
  else if choice = "Books by Year and Publisher" then some sqlYearPublisher
  else if choice = "Find the Publisher with the Most Books Published" then
    some sqlMostBooksPublisher
  else if choice = "Identify the Publisher with the Highest Average Rating" then
    some sqlHighestAvgRatingPublisher
  else if choice = "Find Books Published After 2010 with at Least 500 Pages" then
    some sqlAfter2010Pages500
  else if choice = "List Books with Discounts Greater than 20%" then some sqlDiscounts
  else if choice = "Find the Average Page Count for eBooks vs Physical Books" then
    some sqlAvgPagesEbook
  else if choice = "Find the Top 3 Authors with the Most Books" then some sqlTop3Authors
  else if choice = "List Publishers with More than 10 Books" then some sqlPublishersOver10
  else if choice = "Find the Average Page Count for Each Category" then
    some sqlAvgPagesCategory
  else if choice = "Retrieve Books with More than 3 Authors" then some sqlOver3Authors
  else if choice = "Books with Ratings Count Greater Than the Average" then
    some sqlRatingsAboveAvg
  else if choice = "Books with the Same Author Published in the Same Year" then
    some sqlSameAuthorSameYear
  else if choice = "Books with a Specific Keyword in the Title" then
    some (sqlKeyword keyword)
  else if choice = "Year with the Highest Average Book Price" then
    some sqlHighestAvgPriceYear
  else if choice = "Count Authors Who Published 3 Consecutive Years" then
    some sqlConsecutiveYears
  else if choice = "Authors Published in Same Year but Different Publishers" then
    some sqlSameYearDiffPublishers
  else none

/-- The SQL statements a Run Analysis click executes: the matched branch's
single `query_database` call, or none when no branch matches. -/
def analysisStatements (choice keyword : String) : List String :=
  (analysisSQL choice keyword).toList

/-- The Run Analysis dispatch acting on the database: the matched branch
runs its one statement and renders the result; otherwise nothing runs. -/
def runAnalysis (choice keyword : String) (db : Db) : Option QueryResult × Db :=
  match analysisSQL choice keyword with
  | some sql =>
      let rdb := query_database db sql
      (some rdb.1, rdb.2)
  | none => (none, db)

end BookScape

namespace StockAnalysis

/-- One row of the uploaded stock CSV after `pd.to_datetime` parsed the
`Date` column; the datetime is modelled as a timestamp, the `Close` price
as an exact rational. -/
structure StockRow where
  date : Nat
  symbol : String
  close : ℚ
deriving DecidableEq, Repr

/-- The (Date, Symbol) pair, the `subset` on which the script
deduplicates. -/
def keyOf (r : StockRow) : Nat × String := (r.date, r.symbol)

/-- `df.drop_duplicates(subset=["Date", "Symbol"], keep="last")`
(DataDrivenStockAnalysis.py line 31): a row is kept exactly when no later
row carries the same (Date, Symbol) pair, and kept rows stay in their
original order. -/
def dropDuplicatesLast : List StockRow → List StockRow
  | [] => []
  | r :: rs =>
      if rs.any (fun x => decide (keyOf x = keyOf r)) then dropDuplicatesLast rs
      else r :: dropDuplicatesLast rs

/-- `load_data` (DataDrivenStockAnalysis.py lines 25-35) on an uploaded
file whose Date column parsed: duplicates on (Date, Symbol) are removed
keeping the last occurrence. -/
def load_data (rows : List StockRow) : List StockRow := dropDuplicatesLast rows

/-- The last row of the list whose (Date, Symbol) pair is `k`: the
occurrence that `keep="last"` retains. -/
def lastWithKey (k : Nat × String) : List StockRow → Option StockRow
  | [] => none
  | r :: rs =>
      match lastWithKey k rs with
      | some x => some x
      | none => if keyOf r = k then some r else none

/-- `data.duplicated(subset=['Date', 'Symbol']).any()`
(DataDrivenStockAnalysis.py line 97): some pair occurs at two distinct
positions. -/
def hasDuplicateKeys : List StockRow → Bool
  | [] => false
  | r :: rs => rs.any (fun x => decide (keyOf x = keyOf r)) || hasDuplicateKeys rs

/-- `filtered_data` (DataDrivenStockAnalysis.py lines 63-64): the rows whose
Symbol is the selected stock and whose Date lies in the inclusive selected
range. -/
def filtered_data (data : List StockRow) (stock : String)
    (startDate endDate : Nat) : List StockRow :=
  data.filter (fun r =>
    decide (r.symbol = stock) && decide (startDate ≤ r.date) &&
      decide (r.date ≤ endDate))

/-- `data["Date"].max()` over the rows. -/
def maxDate (data : List StockRow) : Nat := (data.map (·.date)).foldr max 0

/-- `latest_data` (DataDrivenStockAnalysis.py line 87): the rows dated at
the dataset-wide maximum date. -/
def latest_data (data : List StockRow) : List StockRow :=
  data.filter (fun r => decide (r.date = maxDate data))

/-- Insert into a list already sorted by descending Close, before the first
entry that is not larger, so ties keep their first-come order
(pandas `nlargest` keep="first"). -/
def insertByCloseDesc (r : StockRow) : List StockRow → List StockRow
  | [] => [r]
  | x :: xs =>
      if x.close ≤ r.close then r :: x :: xs else x :: insertByCloseDesc r xs

/-- Stable sort of the rows by descending Close. -/
def sortByCloseDesc : List StockRow → List StockRow
  | [] => []
  | x :: xs => insertByCloseDesc x (sortByCloseDesc xs)

/-- Insert into a list already sorted by ascending Close, before the first
entry that is not smaller, so ties keep their first-come order
(pandas `nsmallest` keep="first"). -/
def insertByCloseAsc (r : StockRow) : List StockRow → List StockRow
  | [] => [r]
  | x :: xs =>
      if r.close ≤ x.close then r :: x :: xs else x :: insertByCloseAsc r xs

/-- Stable sort of the rows by ascending Close. -/
def sortByCloseAsc : List StockRow → List StockRow
  | [] => []
  | x :: xs => insertByCloseAsc x (sortByCloseAsc xs)

/-- `latest_data.nlargest(5, "Close")` (DataDrivenStockAnalysis.py
line 88). -/
def top_gainers (data : List StockRow) : List StockRow :=
  (sortByCloseDesc (latest_data data)).take 5

/-- `latest_data.nsmallest(5, "Close")` (DataDrivenStockAnalysis.py
line 89). -/
def top_losers (data : List StockRow) : List StockRow :=
  (sortByCloseAsc (latest_data data)).take 5

/-- The percent changes of a Close series against a given previous value:
the tail of `Series.pct_change()`. -/
def pctChangeFrom (prev : ℚ) : List ℚ → List (Option ℚ)
  | [] => []
  | c :: rest => some (c / prev - 1) :: pctChangeFrom c rest

/-- The Daily Return column (DataDrivenStockAnalysis.py line 71):
`Close.pct_change()` is NaN (here `none`) at the first row and
`close_i / close_(i-1) - 1` at every later row. -/
def dailyReturns : List ℚ → List (Option ℚ)
  | [] => []
  | c :: rest => none :: pctChangeFrom c rest

/-- `1 + series`: NaN entries stay NaN. -/
def onePlus (l : List (Option ℚ)) : List (Option ℚ) :=
  l.map (Option.map (fun x => 1 + x))

/-- `Series.cumprod()` with its default `skipna=True`: a NaN entry stays
NaN in the output and is skipped by the running product. -/
def cumprodSkipNa (acc : ℚ) : List (Option ℚ) → List (Option ℚ)
  | [] => []
  | none :: xs => none :: cumprodSkipNa acc xs
  | some x :: xs => some (acc * x) :: cumprodSkipNa (acc * x) xs

/-- The Cumulative Return column (DataDrivenStockAnalysis.py line 76): the
cumulative product of `1 + Daily Return` over the filtered Close series. -/
def cumulativeReturn (closes : List ℚ) : List (Option ℚ) :=
  cumprodSkipNa 1 (onePlus (dailyReturns closes))

end StockAnalysis

namespace StockAnalysis

theorem dropDuplicatesLast_sublist (l : List StockRow) :
    (dropDuplicatesLast l).Sublist l := by
  induction l with
  | nil => simp [dropDuplicatesLast]
  | cons r rs ih =>
    rw [dropDuplicatesLast]
    split
    · exact ih.cons r
    · exact ih.cons₂ r

theorem mem_of_mem_dropDuplicatesLast {l : List StockRow} {x : StockRow}
    (h : x ∈ dropDuplicatesLast l) : x ∈ l :=
  (dropDuplicatesLast_sublist l).mem h

theorem dropDuplicatesLast_pairwise (l : List StockRow) :
    List.Pairwise (fun a b => keyOf a ≠ keyOf b) (dropDuplicatesLast l) := by
  induction l with
  | nil => simp [dropDuplicatesLast]
  | cons r rs ih =>
    rw [dropDuplicatesLast]
    split
    · exact ih
    · rename_i hnot
      refine List.Pairwise.cons (fun b hb => ?_) ih
      simp only [List.any_eq_true, decide_eq_true_eq, not_exists, not_and] at hnot
      exact fun hk => hnot b (mem_of_mem_dropDuplicatesLast hb) hk.symm

theorem dropDuplicatesLast_key_surviving (l : List StockRow) :
    ∀ r ∈ l, ∃ x ∈ dropDuplicatesLast l, keyOf x = keyOf r := by
  induction l with
  | nil => intro r hr; cases hr
  | cons a rs ih =>
    intro r hr
    rw [dropDuplicatesLast]
    rcases List.mem_cons.mp hr with h | h
    · subst h
      split
      · rename_i hany
        simp only [List.any_eq_true, decide_eq_true_eq] at hany
        obtain ⟨y, hy, hk⟩ := hany
        obtain ⟨x, hx, hxk⟩ := ih y hy
        exact ⟨x, hx, hxk.trans hk⟩
      · exact ⟨r, List.mem_cons_self r _, rfl⟩
    · obtain ⟨x, hx, hxk⟩ := ih r h
      split
      · exact ⟨x, hx, hxk⟩
      · exact ⟨x, List.mem_cons_of_mem a hx, hxk⟩

theorem lastWithKey_eq_none {l : List StockRow} {k : Nat × String}
    (h : ∀ y ∈ l, keyOf y ≠ k) : lastWithKey k l = none := by
  induction l with
  | nil => rfl
  | cons a rs ih =>
    rw [lastWithKey, ih (fun y hy => h y (List.mem_cons_of_mem a hy))]
    simp [h a (List.mem_cons_self a _)]

theorem dropDuplicatesLast_lastWithKey {l : List StockRow} {r : StockRow}
    (h : r ∈ dropDuplicatesLast l) : lastWithKey (keyOf r) l = some r := by
  induction l with
  | nil => cases h
  | cons a rs ih =>
    rw [dropDuplicatesLast] at h
    rw [lastWithKey]
    split at h
    · rw [ih h]
    · rename_i hnot
      simp only [List.any_eq_true, decide_eq_true_eq, not_exists, not_and] at hnot
      rcases List.mem_cons.mp h with h | h
      · subst h
        rw [lastWithKey_eq_none (fun y hy => hnot y hy)]
        simp
      · rw [ih h]

theorem dropDuplicatesLast_mem_cons {a : StockRow} {rs : List StockRow}
    {r : StockRow} (h : r ∈ dropDuplicatesLast rs) :
    r ∈ dropDuplicatesLast (a :: rs) := by
  rw [dropDuplicatesLast]
  split
  · exact h
  · exact List.mem_cons_of_mem a h

theorem dropDuplicatesLast_preserves_unique (l : List StockRow) :
    ∀ r ∈ l, l.countP (fun x => decide (keyOf x = keyOf r)) = 1 →
      r ∈ dropDuplicatesLast l := by
  induction l with
  | nil => intro r hr; cases hr
  | cons a rs ih =>
    intro r hr hu
    rw [List.countP_cons] at hu
    by_cases hk : keyOf a = keyOf r
    · rw [if_pos (by simpa using hk)] at hu
      have hzero : rs.countP (fun x => decide (keyOf x = keyOf r)) = 0 := by omega
      have hnone : ∀ y ∈ rs, keyOf y ≠ keyOf r := by
        intro y hy
        have := List.countP_eq_zero.mp hzero y hy
        simpa using this
      have hra : r = a := by
        rcases List.mem_cons.mp hr with h | h
        · exact h
        · exact absurd rfl (hnone r h)
      subst hra
      rw [dropDuplicatesLast]
      have hno : ¬ rs.any (fun x => decide (keyOf x = keyOf r)) = true := by
        simp only [List.any_eq_true, decide_eq_true_eq, not_exists, not_and]
        exact hnone
      rw [if_neg hno]
      exact List.mem_cons_self r _
    · rw [if_neg (by simpa using hk)] at hu
      have hrrs : r ∈ rs := by
        rcases List.mem_cons.mp hr with h | h
        · exact absurd (h ▸ rfl) hk
        · exact h
      exact dropDuplicatesLast_mem_cons (ih r hrrs (by simpa using hu))

theorem hasDuplicateKeys_eq_false_of_pairwise :
    ∀ m : List StockRow, List.Pairwise (fun a b => keyOf a ≠ keyOf b) m →
      hasDuplicateKeys m = false := by
  intro m
  induction m with
  | nil => intro _; rfl
  | cons a rs ih =>
    intro hm
    rw [hasDuplicateKeys, Bool.or_eq_false_iff]
    refine ⟨?_, ih (List.pairwise_cons.mp hm).2⟩
    simp only [List.any_eq_false, decide_eq_true_eq]
    intro x hx
    exact fun hk => (List.pairwise_cons.mp hm).1 x hx hk.symm

end StockAnalysis


namespace StockAnalysis

theorem insertByCloseDesc_perm (r : StockRow) (l : List StockRow) :
    List.Perm (insertByCloseDesc r l) (r :: l) := by
  induction l with
  | nil => rfl
  | cons x xs ih =>
    rw [insertByCloseDesc]
    split
    · rfl
    · exact (ih.cons x).trans (List.Perm.swap r x xs)

theorem sortByCloseDesc_perm (l : List StockRow) :
    List.Perm (sortByCloseDesc l) l := by
  induction l with
  | nil => rfl
  | cons x xs ih =>
    exact (insertByCloseDesc_perm x (sortByCloseDesc xs)).trans (ih.cons x)

theorem insertByCloseDesc_sorted (r : StockRow) (l : List StockRow)
    (hl : List.Pairwise (fun a b => b.close ≤ a.close) l) :
    List.Pairwise (fun a b => b.close ≤ a.close) (insertByCloseDesc r l) := by
  induction l with
  | nil => simp [insertByCloseDesc]
  | cons x xs ih =>
    rw [insertByCloseDesc]
    obtain ⟨hx, hxs⟩ := List.pairwise_cons.mp hl
    split
    · rename_i hle
      refine List.pairwise_cons.mpr ⟨?_, hl⟩
      intro b hb
      rcases List.mem_cons.mp hb with h | h
      · exact h ▸ hle
      · exact le_trans (hx b h) hle
    · rename_i hgt
      push_neg at hgt
      refine List.pairwise_cons.mpr ⟨?_, ih hxs⟩
      intro b hb
      rcases List.mem_cons.mp ((insertByCloseDesc_perm r xs).mem_iff.mp hb) with h | h
      · exact h ▸ hgt.le
      · exact hx b h

theorem sortByCloseDesc_sorted (l : List StockRow) :
    List.Pairwise (fun a b => b.close ≤ a.close) (sortByCloseDesc l) := by
  induction l with
  | nil => simp [sortByCloseDesc]
  | cons x xs ih => exact insertByCloseDesc_sorted x _ ih

theorem insertByCloseAsc_perm (r : StockRow) (l : List StockRow) :
    List.Perm (insertByCloseAsc r l) (r :: l) := by
  induction l with
  | nil => rfl
  | cons x xs ih =>
    rw [insertByCloseAsc]
    split
    · rfl
    · exact (ih.cons x).trans (List.Perm.swap r x xs)

theorem sortByCloseAsc_perm (l : List StockRow) :
    List.Perm (sortByCloseAsc l) l := by
  induction l with
  | nil => rfl
  | cons x xs ih =>
    exact (insertByCloseAsc_perm x (sortByCloseAsc xs)).trans (ih.cons x)

theorem insertByCloseAsc_sorted (r : StockRow) (l : List StockRow)
    (hl : List.Pairwise (fun a b => a.close ≤ b.close) l) :
    List.Pairwise (fun a b => a.close ≤ b.close) (insertByCloseAsc r l) := by
  induction l with
  | nil => simp [insertByCloseAsc]
  | cons x xs ih =>
    rw [insertByCloseAsc]
    obtain ⟨hx, hxs⟩ := List.pairwise_cons.mp hl
    split
    · rename_i hle
      refine List.pairwise_cons.mpr ⟨?_, hl⟩
      intro b hb
      rcases List.mem_cons.mp hb with h | h
      · exact h ▸ hle
      · exact le_trans hle (hx b h)
    · rename_i hgt
      push_neg at hgt
      refine List.pairwise_cons.mpr ⟨?_, ih hxs⟩
      intro b hb
      rcases List.mem_cons.mp ((insertByCloseAsc_perm r xs).mem_iff.mp hb) with h | h
      · exact h ▸ hgt.le
      · exact hx b h

theorem sortByCloseAsc_sorted (l : List StockRow) :
    List.Pairwise (fun a b => a.close ≤ b.close) (sortByCloseAsc l) := by
  induction l with
  | nil => simp [sortByCloseAsc]
  | cons x xs ih => exact insertByCloseAsc_sorted x _ ih

end StockAnalysis

namespace StockAnalysis

theorem cumprod_pctChange (rest : List ℚ) :
    ∀ prev acc : ℚ, prev ≠ 0 → (∀ c ∈ rest, c ≠ 0) →
      cumprodSkipNa acc (onePlus (pctChangeFrom prev rest)) =
        rest.map (fun c => some (acc * c / prev)) := by
  induction rest with
  | nil => intro prev acc _ _; rfl
  | cons c cs ih =>
    intro prev acc hprev hne
    have hc : c ≠ 0 := hne c (List.mem_cons_self c cs)
    have h1 : (1 : ℚ) + (c / prev - 1) = c / prev := by ring
    have ih2 := ih c (acc * (c / prev)) hc (fun d hd => hne d (List.mem_cons_of_mem c hd))
    simp only [onePlus] at ih2 ⊢
    simp only [pctChangeFrom, List.map_cons, Option.map_some', h1, cumprodSkipNa]
    rw [ih2]
    congr 1
    · rw [mul_div_assoc]
    · apply List.map_congr_left
      intro d _
      congr 1
      field_simp
      ring

theorem cumulativeReturn_eq (c₀ : ℚ) (rest : List ℚ) (h0 : c₀ ≠ 0)
    (hrest : ∀ c ∈ rest, c ≠ 0) :
    cumulativeReturn (c₀ :: rest) = none :: rest.map (fun c => some (c / c₀)) := by
  rw [cumulativeReturn, dailyReturns]
  simp only [onePlus, List.map_cons, Option.map_none', cumprodSkipNa]
  have := cumprod_pctChange rest c₀ 1 h0 hrest
  simp only [onePlus, one_mul] at this
  rw [this]

end StockAnalysis

namespace BookScape

theorem dropLeadingWs_append (l t : List Char) (h : dropLeadingWs l ≠ []) :
    dropLeadingWs (l ++ t) = dropLeadingWs l ++ t := by
  induction l with
  | nil => simp [dropLeadingWs] at h
  | cons c cs ih =>
    by_cases hc : c = ' ' ∨ c = '\n' ∨ c = '\t' ∨ c = '\r'
    · simp only [dropLeadingWs, hc, if_pos, List.cons_append] at h ⊢
      exact ih h
    · simp [dropLeadingWs, hc]

theorem isSelectStmt_sqlKeyword (k : String) : isSelectStmt (sqlKeyword k) = true := by
  have hdata : (sqlKeyword k).data =
      sqlKeywordPrefix.data ++ (k.data ++ sqlKeywordSuffix.data) := by
    simp [sqlKeyword, String.data_append]
  rw [isSelectStmt, hdata, dropLeadingWs_append _ _ (by decide),
    List.take_append_of_le_length (by decide)]
  decide

theorem analysisSQL_isSelect {choice keyword sql : String}
    (h : analysisSQL choice keyword = some sql) : isSelectStmt sql = true := by
  unfold analysisSQL at h
  by_cases c1 : choice = "Availability of eBooks vs Physical Books"
  · rw [if_pos c1] at h
    injection h with h2
    subst h2
    decide
  rw [if_neg c1] at h
  by_cases c2 : choice = "Top 5 Most Expensive Books"
  · rw [if_pos c2] at h
    injection h with h2
    subst h2
    decide
  rw [if_neg c2] at h
  by_cases c3 : choice = "Books with High Ratings"
  · rw [if_pos c3] at h
    injection h with h2
    subst h2
    decide
  rw [if_neg c3] at h
  by_cases c4 : choice = "Books by Year and Publisher"
  · rw [if_pos c4] at h
    injection h with h2
    subst h2
    decide
  rw [if_neg c4] at h
  by_cases c5 : choice = "Find the Publisher with the Most Books Published"
  · rw [if_pos c5] at h
    injection h with h2
    subst h2
    decide
  rw [if_neg c5] at h
  by_cases c6 : choice = "Identify the Publisher with the Highest Average Rating"
  · rw [if_pos c6] at h
    injection h with h2
    subst h2
    decide
  rw [if_neg c6] at h
  by_cases c7 : choice = "Find Books Published After 2010 with at Least 500 Pages"
  · rw [if_pos c7] at h
    injection h with h2
    subst h2
    decide
  rw [if_neg c7] at h
  by_cases c8 : choice = "List Books with Discounts Greater than 20%"
  · rw [if_pos c8] at h
    injection h with h2
    subst h2
    decide
  rw [if_neg c8] at h
  by_cases c9 : choice = "Find the Average Page Count for eBooks vs Physical Books"
  · rw [if_pos c9] at h
    injection h with h2
    subst h2
    decide
  rw [if_neg c9] at h
  by_cases c10 : choice = "Find the Top 3 Authors with the Most Books"
  · rw [if_pos c10] at h
    injection h with h2
    subst h2
    decide
  rw [if_neg c10] at h
  by_cases c11 : choice = "List Publishers with More than 10 Books"
  · rw [if_pos c11] at h
    injection h with h2
    subst h2
    decide
  rw [if_neg c11] at h
  by_cases c12 : choice = "Find the Average Page Count for Each Category"
  · rw [if_pos c12] at h
    injection h with h2
    subst h2
    decide
  rw [if_neg c12] at h
  by_cases c13 : choice = "Retrieve Books with More than 3 Authors"
  · rw [if_pos c13] at h
    injection h with h2
    subst h2
    decide
  rw [if_neg c13] at h
  by_cases c14 : choice = "Books with Ratings Count Greater Than the Average"
  · rw [if_pos c14] at h
    injection h with h2
    subst h2
    decide
  rw [if_neg c14] at h
  by_cases c15 : choice = "Books with the Same Author Published in the Same Year"
  · rw [if_pos c15] at h
    injection h with h2
    subst h2
    decide
  rw [if_neg c15] at h
  by_cases c16 : choice = "Books with a Specific Keyword in the Title"
  · rw [if_pos c16] at h
    injection h with h2
    subst h2
    exact isSelectStmt_sqlKeyword keyword
  rw [if_neg c16] at h
  by_cases c17 : choice = "Year with the Highest Average Book Price"
  · rw [if_pos c17] at h
    injection h with h2
    subst h2
    decide
  rw [if_neg c17] at h
  by_cases c18 : choice = "Count Authors Who Published 3 Consecutive Years"
  · rw [if_pos c18] at h
    injection h with h2
    subst h2
    decide
  rw [if_neg c18] at h
  by_cases c19 : choice = "Authors Published in Same Year but Different Publishers"
  · rw [if_pos c19] at h
    injection h with h2
    subst h2
    decide
  rw [if_neg c19] at h
  exact Option.noConfusion h

theorem runAnalysis_state (choice keyword : String) (db : Db) :
    (runAnalysis choice keyword db).2 = db := by
  unfold runAnalysis
  cases hsql : analysisSQL choice keyword with
  | none => rfl
  | some sql => simp [query_database, analysisSQL_isSelect hsql]

end BookScape

/-!
The claims.  One theorem per claim, with a counterexample where the claim
as stated fails on the code and a witness where the theorem carries
hypotheses.
-/

namespace BookScape

/-- C1 fails as stated: the "Books with a Specific Keyword in the Title"
branch interpolates the keyword text box into its SQL, so two runs that pick
that same analysis choice but type different keywords execute different SQL
strings. -/
theorem keyword_input_changes_analysis_sql :
    analysisSQL "Books with a Specific Keyword in the Title" "Python" ≠
      analysisSQL "Books with a Specific Keyword in the Title" "Java" := by
  decide

/-- C1 (amended): for each of the other 18 analysis choices the dispatch
executes a fixed literal SQL string that does not depend on any other user
input; only the keyword branch splices user input into its SQL. -/
theorem analysisSQL_fixed_for_other_choices (choice : String)
    (hmem : choice ∈ analysis_options)
    (hne : choice ≠ "Books with a Specific Keyword in the Title")
    (k₁ k₂ : String) :
    analysisSQL choice k₁ = analysisSQL choice k₂ := by
  fin_cases hmem <;> first | rfl | exact absurd rfl hne

/-- C1 witness: the amended statement at the "Top 5 Most Expensive Books"
choice and two different keyword-box contents. -/
theorem analysisSQL_fixed_for_other_choices_witness :
    ("Top 5 Most Expensive Books" ∈ analysis_options) ∧
    ("Top 5 Most Expensive Books" ≠ "Books with a Specific Keyword in the Title") ∧
    analysisSQL "Top 5 Most Expensive Books" "Python" =
      analysisSQL "Top 5 Most Expensive Books" "Java" :=
  ⟨by decide, by decide,
    analysisSQL_fixed_for_other_choices "Top 5 Most Expensive Books"
      (by decide) (by decide) "Python" "Java"⟩

/-- C2: `transform_data` returns exactly the flattened rows that have no
missing field: a row is in the result iff it is the flattening of one of the
fetched records and every one of its nullable cells is filled, so the
DataFrame bulk-loaded into the table contains no row with a missing
field. -/
theorem transform_data_flattens_and_drops_incomplete
    (books : List BookRecord) (r : BookRow) :
    r ∈ transform_data books ↔
      ((∃ b ∈ books, flattenBook b = r) ∧ NoMissingField r) := by
  simp [transform_data, List.mem_filter, List.mem_map, rowComplete_iff]

/-- C4 fails as stated: a failing fetch (non-200 status) is not surfaced by
any catch-and-display handler; `fetch_books` recovers by substituting the
default empty list, which the Search handler then reports as the unrelated
"No books found." message. -/
theorem fetch_books_defaults_on_failure :
    (404 : Nat) ≠ 200 ∧
    fetch_books ⟨404, [⟨none, none, none⟩]⟩ = [] ∧
    (searchHandler ⟨404, [⟨none, none, none⟩]⟩ (Db.table [])).1 =
      SearchOutcome.noBooks := by
  refine ⟨by decide, rfl, rfl⟩

/-- C4 (amended): the Run Query and Run Analysis handlers are blanket
catch-and-display, but fetching recovers differently: a non-200 response is
replaced by the default empty list (and shown as "No books found."), not
displayed as an error. -/
theorem error_handling_catch_display_and_fetch_default
    (resp : HttpResponse) (db : Db) (hfail : resp.statusCode ≠ 200) :
    fetch_books resp = [] ∧
    (searchHandler resp db).1 = SearchOutcome.noBooks ∧
    (searchHandler resp db).2 = db ∧
    (∀ e, runQueryHandler (Except.error e) =
      Display.errorMessage ("Error running query: " ++ e)) ∧
    (∀ e, runAnalysisHandler (Except.error e) =
      Display.errorMessage ("Error running analysis: " ++ e)) := by
  have hf : fetch_books resp = [] := by simp [fetch_books, hfail]
  refine ⟨hf, ?_, ?_, fun e => rfl, fun e => rfl⟩
  · simp [searchHandler, hf]
  · simp [searchHandler, hf]

/-- C4 witness: the amended statement at a concrete 404 response. -/
theorem error_handling_catch_display_witness :
    ((404 : Nat) ≠ 200) ∧
    (fetch_books ⟨404, []⟩ = [] ∧
     (searchHandler ⟨404, []⟩ (Db.table [])).1 = SearchOutcome.noBooks ∧
     (searchHandler ⟨404, []⟩ (Db.table [])).2 = Db.table [] ∧
     (∀ e, runQueryHandler (Except.error e) =
       Display.errorMessage ("Error running query: " ++ e)) ∧
     (∀ e, runAnalysisHandler (Except.error e) =
       Display.errorMessage ("Error running analysis: " ++ e))) :=
  ⟨by decide,
    error_handling_catch_display_and_fetch_default ⟨404, []⟩ (Db.table []) (by decide)⟩

/-- C5: every analysis choice runs exactly one statement, that statement is a
SELECT, running it leaves the database state unchanged, and its result is
unaffected by whatever analysis ran before it. -/
theorem analysis_single_select_stateless (choice keyword : String)
    (hmem : choice ∈ analysis_options) :
    (analysisStatements choice keyword).length = 1 ∧
    (∀ s ∈ analysisStatements choice keyword, isSelectStmt s = true) ∧
    (∀ db : Db, (runAnalysis choice keyword db).2 = db) ∧
    (∀ (prevChoice prevKeyword : String) (db : Db),
      (runAnalysis choice keyword (runAnalysis prevChoice prevKeyword db).2).1 =
        (runAnalysis choice keyword db).1) := by
  refine ⟨?_, ?_, fun db => runAnalysis_state choice keyword db, ?_⟩
  · fin_cases hmem <;> rfl
  · intro s hs
    have heq : analysisSQL choice keyword = some s := by
      simpa [analysisStatements, Option.mem_toList, Option.mem_def] using hs
    exact analysisSQL_isSelect heq
  · intro pc pk db
    rw [runAnalysis_state pc pk db]

/-- C5 witness: the statement at the "Top 5 Most Expensive Books" choice. -/
theorem analysis_single_select_stateless_witness :
    ("Top 5 Most Expensive Books" ∈ analysis_options) ∧
    ((analysisStatements "Top 5 Most Expensive Books" "Python").length = 1 ∧
     (∀ s ∈ analysisStatements "Top 5 Most Expensive Books" "Python",
       isSelectStmt s = true) ∧
     (∀ db : Db, (runAnalysis "Top 5 Most Expensive Books" "Python" db).2 = db) ∧
     (∀ (prevChoice prevKeyword : String) (db : Db),
       (runAnalysis "Top 5 Most Expensive Books" "Python"
           (runAnalysis prevChoice prevKeyword db).2).1 =
         (runAnalysis "Top 5 Most Expensive Books" "Python" db).1)) :=
  ⟨by decide,
    analysis_single_select_stateless "Top 5 Most Expensive Books" "Python" (by decide)⟩

/-- C8: saving replaces the stored table: after `save_to_database df` the
`books` table holds exactly the rows of `df`, whatever was stored before is
discarded, and a successful search leaves the table holding exactly the
rows transformed from that search alone. -/
theorem save_to_database_replaces_table (df : List BookRow) (db : Db) :
    save_to_database df db = Db.table df ∧
    (∀ df₀ : List BookRow,
      save_to_database df (save_to_database df₀ db) = save_to_database df db) ∧
    (∀ resp : HttpResponse, (searchHandler resp db).2 =
      if (fetch_books resp).isEmpty then db
      else Db.table (transform_data (fetch_books resp))) := by
  refine ⟨rfl, fun df₀ => rfl, fun resp => ?_⟩
  simp only [searchHandler, save_to_database]
  split <;> rfl

end BookScape

namespace StockAnalysis

/-- C3: `load_data` deduplicates on the (Date, Symbol) pair keeping the last
occurrence: the result is an order-preserving sublist of the input with
pairwise distinct keys, every input key survives, every kept row is the last
input row bearing its key, and every input row whose key occurs exactly once
is preserved. -/
theorem load_data_dedups_on_date_symbol (rows : List StockRow) :
    (load_data rows).Sublist rows ∧
    List.Pairwise (fun a b => keyOf a ≠ keyOf b) (load_data rows) ∧
    (∀ r ∈ rows, ∃ x ∈ load_data rows, keyOf x = keyOf r) ∧
    (∀ r ∈ load_data rows, lastWithKey (keyOf r) rows = some r) ∧
    (∀ r ∈ rows, rows.countP (fun x => decide (keyOf x = keyOf r)) = 1 →
      r ∈ load_data rows) :=
  ⟨dropDuplicatesLast_sublist rows, dropDuplicatesLast_pairwise rows,
    dropDuplicatesLast_key_surviving rows,
    fun _ hr => dropDuplicatesLast_lastWithKey hr,
    dropDuplicatesLast_preserves_unique rows⟩

/-- C6: the slice handed to the stock-price, volatility and
cumulative-return charts holds exactly the loaded rows whose Symbol is the
selected stock and whose Date lies in the inclusive selected range. -/
theorem filtered_data_characterization (data : List StockRow) (stock : String)
    (startDate endDate : Nat) (r : StockRow) :
    r ∈ filtered_data data stock startDate endDate ↔
      (r ∈ data ∧ r.symbol = stock ∧ startDate ≤ r.date ∧ r.date ≤ endDate) := by
  simp [filtered_data, List.mem_filter, and_assoc]

/-- C7: the latest slice holds exactly the rows dated at the dataset-wide
maximum date, and the gainers (losers) table is a top-5 (bottom-5)
selection from it by Close: it is five rows of the slice (fewer only when
the slice is shorter) dominating (dominated by) every row left out. -/
theorem top5_gainers_losers_topk (data : List StockRow) :
    (∀ r, r ∈ latest_data data ↔ (r ∈ data ∧ r.date = maxDate data)) ∧
    (∃ rest, List.Perm (latest_data data) (top_gainers data ++ rest) ∧
      (top_gainers data).length = min 5 (latest_data data).length ∧
      ∀ x ∈ top_gainers data, ∀ y ∈ rest, y.close ≤ x.close) ∧
    (∃ rest, List.Perm (latest_data data) (top_losers data ++ rest) ∧
      (top_losers data).length = min 5 (latest_data data).length ∧
      ∀ x ∈ top_losers data, ∀ y ∈ rest, x.close ≤ y.close) := by
  refine ⟨?_, ?_, ?_⟩
  · intro r
    simp [latest_data, List.mem_filter]
  · refine ⟨(sortByCloseDesc (latest_data data)).drop 5, ?_, ?_, ?_⟩
    · rw [top_gainers, List.take_append_drop]
      exact (sortByCloseDesc_perm _).symm
    · rw [top_gainers, List.length_take, (sortByCloseDesc_perm _).length_eq]
    · intro x hx y hy
      have hsorted := sortByCloseDesc_sorted (latest_data data)
      rw [← List.take_append_drop 5 (sortByCloseDesc (latest_data data)),
        List.pairwise_append] at hsorted
      exact hsorted.2.2 x hx y hy
  · refine ⟨(sortByCloseAsc (latest_data data)).drop 5, ?_, ?_, ?_⟩
    · rw [top_losers, List.take_append_drop]
      exact (sortByCloseAsc_perm _).symm
    · rw [top_losers, List.length_take, (sortByCloseAsc_perm _).length_eq]
    · intro x hx y hy
      have hsorted := sortByCloseAsc_sorted (latest_data data)
      rw [← List.take_append_drop 5 (sortByCloseAsc (latest_data data)),
        List.pairwise_append] at hsorted
      exact hsorted.2.2 x hx y hy

/-- C9: the duplicate-data warning on the analysis page can never fire: the
data it checks has already been deduplicated on (Date, Symbol) by
`load_data`, so the duplicated-keys test is always false. -/
theorem duplicate_warning_unreachable (rows : List StockRow) :
    hasDuplicateKeys (load_data rows) = false :=
  hasDuplicateKeys_eq_false_of_pairwise _ (dropDuplicatesLast_pairwise rows)

/-- C10: on a non-empty filtered Close series with no zero price, the
Cumulative Return column is NaN at the first row and telescopes to
`close_i / close_0` at every later row. -/
theorem cumulative_return_telescopes (c₀ : ℚ) (rest : List ℚ)
    (h0 : c₀ ≠ 0) (hrest : ∀ c ∈ rest, c ≠ 0) :
    cumulativeReturn (c₀ :: rest) = none :: rest.map (fun c => some (c / c₀)) :=
  cumulativeReturn_eq c₀ rest h0 hrest

/-- C10 witness: the series 2, 4, 8 gives cumulative returns NaN, 2, 4. -/
theorem cumulative_return_telescopes_witness :
    ((2 : ℚ) ≠ 0) ∧ (∀ c ∈ [(4 : ℚ), 8], c ≠ 0) ∧
    cumulativeReturn [2, 4, 8] = [none, some 2, some 4] := by
  refine ⟨by norm_num, by decide, ?_⟩
  rw [cumulative_return_telescopes 2 [4, 8] (by norm_num) (by decide)]
  norm_num

end StockAnalysis
